import Mathlib

/-!
Verification development for `mdcx/cmd/crawl.py` (crawler debug CLI).

The Python source is shallowly embedded: pure helpers become Lean functions
over `List Char` / `String`; the effectful commands (`main`/`_crawl`,
`fetch`/`_fetch_async`) become functions that also return an explicit event
trace (resource creation, browser acquisition/launch/close, directory
creation, file writes).  External collaborators that live outside the
embedded file (`AsyncWebClient.get_text`, `BrowserProvider`, the crawler
classes' `run` and `_fetch_detail`, `ManualConfig.WEB_DIC`) are passed in as
oracle parameters, so every theorem quantifies over their behaviour.
-/

namespace Mdcx

/-! ## Python string primitives (charwise, so that the kernel can evaluate) -/

/-- Python `s.split(sep)` for a single-character separator: always returns at
least one (possibly empty) chunk; `"".split(sep) == [""]`. -/
def pySplitChar (sep : Char) : List Char → List (List Char)
  | [] => [[]]
  | c :: rest =>
    let r := pySplitChar sep rest
    if c = sep then [] :: r
    else
      match r with
      | [] => [[c]]
      | g :: gs => (c :: g) :: gs

/-- Python `s.strip(c)` for a single strip character: drop leading and
trailing occurrences of `c`. -/
def pyStrip (c : Char) (s : List Char) : List Char :=
  ((s.dropWhile (· = c)).reverse.dropWhile (· = c)).reverse

/-- Python `s.replace(a, b)` for single characters: replace every occurrence. -/
def pyReplaceChar (a b : Char) (s : List Char) : List Char :=
  s.map (fun x => if x = a then b else x)

/-- Python `s.lower()` (charwise). -/
def pyLower (s : List Char) : List Char :=
  s.map Char.toLower

/-- Python `needle in hay` prefix test helper: does `hay` start with `needle`? -/
def charsStartWith : List Char → List Char → Bool
  | [], _ => true
  | _ :: _, [] => false
  | a :: as, b :: bs => (a = b) && charsStartWith as bs

/-- Python substring test `needle in hay`. -/
def charsContain (needle : List Char) : List Char → Bool
  | [] => charsStartWith needle []
  | b :: rest => charsStartWith needle (b :: rest) || charsContain needle rest

/-- Python truthiness of an optional string: `None` and `""` are falsy. -/
def strTruthy : Option String → Bool
  | none => false
  | some s => s ≠ ""

/-- `pathlib`-style join of one extra component, rendered as a string. -/
def pathJoin (a b : String) : String := a ++ "/" ++ b

/-! ## Data model (`mdcx.models.types`, `mdcx.config.models`) -/

/-- `Website`: member of a closed set of site identifiers.  Only its string
value (`site.value`) is observable in the embedded code, so it is modelled as
that string. -/
abbrev Website := String

/-- `CrawlerInput` (the request descriptor shared by all dispatched tasks).
`language`/`org_language` carry the raw language-code string; the `Language`
enum conversion of the collaborator is modelled as the identity on the code
string, with `""` defaulting to `"undefined"` as in `Language(x or "undefined")`. -/
structure CrawlerInput where
  number : String
  appoint_url : String
  file_path : Option String
  short_number : String
  mosaic : String
  appoint_number : String
  language : String
  org_language : String
deriving Repr, DecidableEq

/-- Modelled from the spec: `CrawlerInput.empty()`, the "empty factory" used by
the single-URL fetch (all string fields empty, languages `"undefined"`).  The
factory itself lives in `mdcx.models.types`, outside the embedded file. -/
def CrawlerInput.empty : CrawlerInput :=
  ⟨"", "", none, "", "", "", "undefined", "undefined"⟩

/-- `DebugInfo`: log trail, wall-clock duration and optional error message of
one task. -/
structure DebugInfo where
  logs : List String
  execution_time : Float
  error : String

/-- `CrawlResult`: optional success payload (site-specific structured data,
kept as a type parameter `D`) plus `DebugInfo`. -/
structure CrawlResult (D : Type) where
  data : Option D
  debug_info : DebugInfo

/-- Terminal state of one submitted future: either the task raised
(`f.exception()` non-`None`) or it returned a `CrawlResult`. -/
inductive TaskOutcome (D : Type) where
  | exn (msg : String)
  | ok (res : CrawlResult D)

/-- Observable effects of the two commands: resource creation, browser
acquisition (`get_browser`), the underlying one-time session launch, session
release (`BrowserProvider.close`), and filesystem effects. -/
inductive Event where
  | clientCreate
  | providerCreate
  | browserGet
  | browserLaunch
  | browserClose
  | mkdir (path : String)
  | writeFile (path : String) (content : String)
deriving Repr, DecidableEq

/-! ## Executor model (`mdcx.utils.executor`, collaborator) -/

/-- Modelled from the spec: the shared concurrent execution context
(`executor.submit` / `executor.wait_all`, outside the embedded file).
Submitted tasks finish in an arbitrary completion order `order` (a sequence
of submission indices); each completion records the submission index together
with that task's terminal outcome. -/
def completeInOrder (tasks : List α) (order : List Nat) : List (Nat × α) :=
  order.filterMap (fun i => (tasks[i]?).map (fun t => (i, t)))

/-- Reading `futures[i].result()` / `futures[i].exception()`: look up the
outcome recorded for submission index `i`, wherever it sits in the
completion log. -/
def futureLookup (log : List (Nat × α)) (i : Nat) : Option α :=
  (log.find? (fun p => p.1 == i)).map Prod.snd

/-! ## `_crawl` (crawl.py lines 91–137) -/

/-- What the reporting loop prints for one slot: `f.exception()` non-`None`
gives the captured task error; otherwise `res.data` present gives the
success block (debug logs, payload, optional output write), `res.data`
absent gives the failure block with `res.debug_info.error`. -/
inductive SlotBody (D : Type) where
  | errored (msg : String)
  | succeeded (logs : List String) (data : D) (written : Option String)
  | failed (logs : List String) (error : String)

/-- Python `hay.replace(pat, rep)` for a general (non-empty) pattern, used by
`output.replace("\x7bsite\x7d", sites[i].value)`. -/
def pyReplaceList (pat rep : List Char) (hay : List Char) : List Char :=
  match hay with
  | [] => []
  | c :: rest =>
    if pat ≠ [] ∧ charsStartWith pat (c :: rest) = true then
      rep ++ pyReplaceList pat rep (rest.drop (pat.length - 1))
    else c :: pyReplaceList pat rep rest
termination_by hay.length
decreasing_by
  · simp only [List.length_cons]
    have := List.length_drop (pat.length - 1) rest
    omega
  · simp

/-- `output.replace("\x7bsite\x7d", site)` as a string operation. -/
def substSite (tmpl site : String) : String :=
  String.mk (pyReplaceList ("\x7bsite\x7d".toList) site.toList tmpl.toList)

/-- crawl.py lines 115–137: the slot body for one terminal outcome, with the
optional `--output` write (performed only when `output` is truthy) recorded
as the substituted path. -/
def slotBody (output : Option String) (site : Website) (o : TaskOutcome D) :
    SlotBody D :=
  match o with
  | .exn m => .errored m
  | .ok res =>
    match res.data with
    | some d =>
      .succeeded res.debug_info.logs d
        (if strTruthy output then some (substSite (output.getD "") site)
         else none)
    | none => .failed res.debug_info.logs res.debug_info.error

/-- Browser acquisition events of the submitted task bodies: every task
awaits `browser_provider.get_browser()` unconditionally; the first
acquisition launches the single shared session, later ones return the cached
handle. -/
def browserTaskEvents : List Website → Bool → List Event
  | [], _ => []
  | _ :: rest, launched =>
    (if launched then [Event.browserGet]
     else [Event.browserGet, Event.browserLaunch])
      ++ browserTaskEvents rest true

/-- The observable outcome of one `_crawl` call: its event trace and the
ordered per-site report list (slot `i` may be `none` only if the future for
submission index `i` never completed, which `wait_all` rules out). -/
structure CrawlRun (D : Type) where
  events : List Event
  reports : List (Website × Option (SlotBody D))

/-- `_crawl`: resolve one crawler class per site (`get_crawler_compat`,
absorbed with the class's `run` into the oracle `runTask`), create the shared
HTTP client and the `BrowserProvider`, submit one task per site, wait for
all, then report each future in submission order — label `sites[i]`, body
from `futures[i]`.  `order` is the completion order of the concurrently
running tasks.  Note: `_crawl` contains no `browser_provider.close()` call,
so its trace never contains `Event.browserClose`. -/
def crawl_run (sites : List Website) (input : CrawlerInput)
    (output : Option String)
    (runTask : Website → CrawlerInput → TaskOutcome D) (order : List Nat) :
    CrawlRun D :=
  let tasks := sites.map (fun s => runTask s input)
  let log := completeInOrder tasks order
  { events := Event.clientCreate :: Event.providerCreate ::
      browserTaskEvents sites false,
    reports := sites.enum.map (fun p =>
      (p.2, (futureLookup log p.1).map (slotBody output p.2))) }

/-- The observable outcome of one root-command invocation. -/
structure MainRun (D : Type) where
  events : List Event
  exitCode : Nat
  run : Option (CrawlRun D)

/-- Root command `main` (crawl.py lines 32–88) on a root invocation (no
subcommand): `--site` missing exits 1; then the `CrawlerInput` is built
(`Language(x or "undefined")` modelled as the string default); then missing
`number`/`appoint_url` exits 1; both validations happen before `_crawl`
creates any client or browser resource.  When validation passes, `_crawl`
runs and the command finishes with exit code 0. -/
def main_run (sites : Option (List Website)) (number appoint_url : String)
    (file_path : Option String)
    (short_number mosaic appoint_number language org_language : String)
    (output : Option String)
    (runTask : Website → CrawlerInput → TaskOutcome D) (order : List Nat) :
    MainRun D :=
  match sites with
  | none => ⟨[], 1, none⟩
  | some sites =>
    let crawler_input : CrawlerInput :=
      { number := number, appoint_url := appoint_url, file_path := file_path,
        short_number := short_number, mosaic := mosaic,
        appoint_number := appoint_number,
        language := if language = "" then "undefined" else language,
        org_language := if org_language = "" then "undefined" else org_language }
    if number = "" ∧ appoint_url = "" then ⟨[], 1, none⟩
    else
      let r := crawl_run sites crawler_input output runTask order
      ⟨r.events, 0, some r⟩

/-! ## `_detect_site_from_url` (crawl.py lines 188–195) -/

/-- Python `keyword.lower() in url_lower` for one `WEB_DIC` entry. -/
def kwMatches (keyword url : String) : Bool :=
  charsContain (pyLower keyword.toList) (pyLower url.toList)

/-- `_detect_site_from_url`: scan `ManualConfig.WEB_DIC` (passed in as the
ordered association list `web_dic`, since `ManualConfig` lives outside the
embedded file) and return the site of the first keyword whose lowercase form
occurs in the lowercased URL; `None` if no keyword matches. -/
def detect_site_from_url (web_dic : List (String × Website)) (url : String) :
    Option Website :=
  match web_dic.find? (fun p => kwMatches p.1 url) with
  | some p => some p.2
  | none => none

/-! ## `_determine_output_path` (crawl.py lines 297–323) -/

/-- The `identifier.replace("=", "_").replace("?", "_").replace("&", "_")`
chain of the source. -/
def cleanIdentifier (s : List Char) : List Char :=
  pyReplaceChar '&' '_' (pyReplaceChar '?' '_' (pyReplaceChar '=' '_' s))

/-- `_determine_output_path`: explicit path wins when truthy; otherwise the
path is derived from `number`, the URL and the (optional) site.  Paths are
rendered as `/`-joined strings. -/
def determine_output_path (output_path : Option String) (url : String)
    (site : Option Website) (number : Option String) (base_dir : String) :
    String :=
  if strTruthy output_path then output_path.getD ""
  else
    let base_path := base_dir
    let filename :=
      if strTruthy number then (number.getD "") ++ ".html"
      else
        let url_parts := pySplitChar '/' (pyStrip '/' url.toList)
        if url_parts ≠ [] then
          String.mk (cleanIdentifier (url_parts.getLastD [])) ++ ".html"
        else "detail.html"
    match site with
    | some s => pathJoin (pathJoin base_path s) filename
    | none => pathJoin base_path filename

/-- The derivation rule exactly as the spec words it (for the refinement
comparison with `determine_output_path`): the filename comes from the URL's
final path segment — path segments being the nonempty `/`-separated chunks —
"falling back to `detail.html` if the URL has no path segments". -/
def spec_output_path (url : String) (site : Option Website)
    (number : Option String) (base_dir : String) : String :=
  let segments := (pySplitChar '/' (pyStrip '/' url.toList)).filter (· ≠ [])
  let filename :=
    if strTruthy number then (number.getD "") ++ ".html"
    else
      match segments.getLast? with
      | some seg => String.mk (cleanIdentifier seg) ++ ".html"
      | none => "detail.html"
  match site with
  | some s => pathJoin (pathJoin base_dir s) filename
  | none => pathJoin base_dir filename

/-- The amended derivation rule: identical to the spec's, except that the
`detail.html` fallback is dead — splitting always yields at least one
(possibly empty) chunk, so the filename always comes from the final chunk of
the whole stripped URL (empty chunk giving `".html"`), with `=`, `?`, `&`
each replaced by `_` in a single pass. -/
def amended_output_path (url : String) (site : Option Website)
    (number : Option String) (base_dir : String) : String :=
  let filename :=
    if strTruthy number then (number.getD "") ++ ".html"
    else
      let seg := (pySplitChar '/' (pyStrip '/' url.toList)).getLastD []
      String.mk (seg.map (fun c => if c = '=' ∨ c = '?' ∨ c = '&' then '_' else c))
        ++ ".html"
  match site with
  | some s => pathJoin (pathJoin base_dir s) filename
  | none => pathJoin base_dir filename

/-! ## `_fetch_async` (crawl.py lines 198–294) -/

/-- Collaborators consumed by `_fetch_async`, all defined outside the
embedded file: `get_crawler` resolvability, the crawler's `_fetch_detail`,
`BrowserProvider.get_browser` (which may fail to launch), the scoped
page navigation (`new_page`/`goto`/`content`, any exception captured as its
`str(e)` message), `AsyncWebClient.get_text`, and whether the final
`write_text` raises. -/
structure FetchOracles where
  get_crawler : Website → Bool
  fetch_detail : Website → CrawlerInput → String → Option String × String
  get_browser : Except String Unit
  nav : String → Except String String
  get_text : String → Option String × String
  write_error : Option String

/-- Result of the three-branch fetch phase (crawl.py lines 239–267): the
`(html, error)` pair, or `exit(1)` (`SystemExit`) on an unresolved strategy,
or an exception propagating to the outer `except` clause. -/
inductive PhaseResult where
  | pair (html : Option String) (error : String)
  | sysExit (code : Nat)
  | raised (msg : String)
deriving Repr, DecidableEq

/-- The events of one `browser_provider.get_browser()` call on the fresh
per-command provider: acquisition plus the one-time session launch. -/
def acquireEvents : List Event := [Event.browserGet, Event.browserLaunch]

/-- The three strategy branches of `_fetch_async`: site-specific
`_fetch_detail` (browser handle passed only when `--use-browser`), forced
browser rendering (navigation errors captured as `(None, str(e))`), or plain
`AsyncWebClient.get_text`. -/
def fetch_phase (url : String) (website : Option Website) (use_browser : Bool)
    (o : FetchOracles) : List Event × PhaseResult :=
  match website with
  | some w =>
    if o.get_crawler w = false then ([], .sysExit 1)
    else
      let ci := { CrawlerInput.empty with appoint_url := url }
      match use_browser, o.get_browser with
      | true, .error m => (acquireEvents, .raised m)
      | true, .ok _ =>
        (acquireEvents, .pair (o.fetch_detail w ci url).1 (o.fetch_detail w ci url).2)
      | false, _ =>
        ([], .pair (o.fetch_detail w ci url).1 (o.fetch_detail w ci url).2)
  | none =>
    if use_browser then
      match o.get_browser with
      | .error m => (acquireEvents, .raised m)
      | .ok _ =>
        match o.nav url with
        | .ok content => (acquireEvents, .pair (some content) "")
        | .error e => (acquireEvents, .pair none e)
    else ([], .pair (o.get_text url).1 (o.get_text url).2)

/-- `pathlib`'s `.parent` of a `/`-joined path string. -/
def parentDir (p : String) : String :=
  String.intercalate "/" (((pySplitChar '/' p.toList).map String.mk).dropLast)

/-- Terminal state of the `_fetch_async` body: early `return` after a
captured fetch error, successful save, `SystemExit`, or an exception
reaching the outer `except` clause. -/
inductive FetchEnd where
  | earlyReturn (error : String)
  | saved (path : String) (html : String)
  | sysExit (code : Nat)
  | raised (msg : String)
deriving Repr, DecidableEq

/-- crawl.py lines 269–284: `html is None` returns early; otherwise derive
the output path, create the parent directory and write the HTML (the write
may raise). -/
def afterFetch (url : String) (website : Option Website)
    (output_path : Option String) (number : Option String) (base_dir : String)
    (o : FetchOracles) (html : Option String) (error : String) :
    List Event × FetchEnd :=
  match html with
  | none => ([], .earlyReturn error)
  | some h =>
    let output_file := determine_output_path output_path url website number base_dir
    match o.write_error with
    | some m => ([Event.mkdir (parentDir output_file)], .raised m)
    | none =>
      ([Event.mkdir (parentDir output_file), Event.writeFile output_file h],
        .saved output_file h)

/-- The `try` body of `_fetch_async`: fetch phase followed by the save
phase. -/
def fetch_body (url : String) (website : Option Website) (use_browser : Bool)
    (output_path : Option String) (number : Option String) (base_dir : String)
    (o : FetchOracles) : List Event × FetchEnd :=
  match fetch_phase url website use_browser o with
  | (evs, .pair html error) =>
    let t := afterFetch url website output_path number base_dir o html error
    (evs ++ t.1, t.2)
  | (evs, .sysExit c) => (evs, .sysExit c)
  | (evs, .raised m) => (evs, .raised m)

/-- The observable outcome of one `_fetch_async` call. -/
structure FetchRun where
  events : List Event
  exitCode : Nat
  outcome : FetchEnd

/-- `_fetch_async`: client and provider creation, the `try` body, the
`except Exception` clause (print + `typer.Exit(1)`), and the `finally`
clause, which releases the browser provider on every exit path — normal
completion, the early return, `SystemExit` from `exit(1)` (not an
`Exception`, so it skips the `except` clause), and any raised exception. -/
def fetch_async (url : String) (website : Option Website) (use_browser : Bool)
    (output_path : Option String) (number : Option String) (base_dir : String)
    (o : FetchOracles) : FetchRun :=
  let r := fetch_body url website use_browser output_path number base_dir o
  let evs := Event.clientCreate :: Event.providerCreate :: r.1
  match r.2 with
  | .raised m => ⟨evs ++ [Event.browserClose], 1, .raised m⟩
  | .sysExit c => ⟨evs ++ [Event.browserClose], c, .sysExit c⟩
  | e => ⟨evs ++ [Event.browserClose], 0, e⟩

/-- The claim's output contract for the `(html, error)` pair: `html`
non-empty (present and a non-empty string) if and only if `error` is
empty. -/
def htmlErrorXor (h : Option String) (e : String) : Prop :=
  (∃ s, h = some s ∧ s ≠ "") ↔ e = ""

/-- The presence-based contract that actually governs the code: `html` is
present (non-`None`) if and only if `error` is the empty string. -/
def presenceOk (p : Option String × String) : Prop :=
  p.1.isSome = true ↔ p.2 = ""

/-- Filesystem effects among the events. -/
def isFsEvent : Event → Bool
  | .mkdir _ => true
  | .writeFile _ _ => true
  | _ => false

theorem pySplitChar_ne_nil (sep : Char) (s : List Char) :
    pySplitChar sep s ≠ [] := by
  cases s with
  | nil => simp [pySplitChar]
  | cons c rest =>
    simp only [pySplitChar]
    split
    · simp
    · split <;> simp

theorem cleanIdentifier_eq_map (s : List Char) :
    cleanIdentifier s
      = s.map (fun c => if c = '=' ∨ c = '?' ∨ c = '&' then '_' else c) := by
  simp only [cleanIdentifier, pyReplaceChar, List.map_map]
  apply List.map_congr_left
  intro c _
  by_cases h1 : c = '=' <;> by_cases h2 : c = '?' <;> by_cases h3 : c = '&' <;>
    simp [h1, h2, h3, Function.comp]

theorem mem_completeInOrder {tasks : List α} {order : List Nat}
    {p : Nat × α} (hp : p ∈ completeInOrder tasks order) :
    tasks[p.1]? = some p.2 := by
  unfold completeInOrder at hp
  rw [List.mem_filterMap] at hp
  obtain ⟨i, _, hi⟩ := hp
  rcases ht : tasks[i]? with _ | t
  · rw [ht] at hi; cases hi
  · rw [ht] at hi
    simp only [Option.map_some'] at hi
    cases hi
    simpa using ht

/-- Once every submission index below `tasks.length` appears in the
completion order (`wait_all` returned), reading future `i` yields task `i`'s
own outcome, independent of where it completed. -/
theorem futureLookup_complete (tasks : List α) (order : List Nat) (i : Nat)
    (hi : i < tasks.length) (hmem : i ∈ order) :
    futureLookup (completeInOrder tasks order) i = some tasks[i] := by
  unfold futureLookup
  rcases hfind : (completeInOrder tasks order).find? (fun p => p.1 == i)
    with _ | p
  · exfalso
    have hmem2 : (i, tasks[i]) ∈ completeInOrder tasks order := by
      unfold completeInOrder
      rw [List.mem_filterMap]
      exact ⟨i, hmem, by simp [List.getElem?_eq_getElem hi]⟩
    have := List.find?_eq_none.mp hfind (i, tasks[i]) hmem2
    simp at this
  · have hpi : p.1 = i := by simpa using List.find?_some hfind
    have hval := mem_completeInOrder (List.mem_of_find?_eq_some hfind)
    rw [hpi, List.getElem?_eq_getElem hi] at hval
    simp only [Option.some.injEq] at hval
    rw [hfind]
    simp [hval]

/-- Slot `i` of the `_crawl` report: label `sites[i]`, body computed from
task `i`'s own outcome — for every completion order that contains every
index (`wait_all`). -/
theorem crawl_reports_spec (sites : List Website) (input : CrawlerInput)
    (output : Option String)
    (runTask : Website → CrawlerInput → TaskOutcome D) (order : List Nat)
    (horder : ∀ i, i < sites.length → i ∈ order)
    (i : Nat) (hi : i < sites.length) :
    (crawl_run sites input output runTask order).reports[i]?
      = some (sites[i],
          some (slotBody output sites[i] (runTask sites[i] input))) := by
  unfold crawl_run
  simp only [List.getElem?_map, List.getElem?_enum,
    List.getElem?_eq_getElem hi, Option.map_some']
  have hlen : i < (sites.map (fun s => runTask s input)).length := by
    simpa using hi
  rw [futureLookup_complete (sites.map (fun s => runTask s input)) order i hlen
    (horder i hi)]
  simp

theorem crawl_reports_length (sites : List Website) (input : CrawlerInput)
    (output : Option String)
    (runTask : Website → CrawlerInput → TaskOutcome D) (order : List Nat) :
    (crawl_run sites input output runTask order).reports.length
      = sites.length := by
  unfold crawl_run
  simp [List.enum_length]

/-- C1: `_crawl` produces exactly one result slot per requested site, in the
same length and order as the site list: slot `i` is labelled `sites[i]` and
holds the outcome of site `i`'s own task, for every completion order in which
all tasks finished; consequently the whole report list is the same for any
two such completion orders. -/
theorem C1_dispatch_ordered (D : Type) (sites : List Website)
    (input : CrawlerInput) (output : Option String)
    (runTask : Website → CrawlerInput → TaskOutcome D) (order : List Nat)
    (horder : ∀ i, i < sites.length → i ∈ order) :
    (crawl_run sites input output runTask order).reports.length = sites.length
      ∧ (∀ i, ∀ hi : i < sites.length,
          (crawl_run sites input output runTask order).reports[i]?
            = some (sites[i],
                some (slotBody output sites[i] (runTask sites[i] input))))
      ∧ (∀ order₂, (∀ i, i < sites.length → i ∈ order₂) →
          (crawl_run sites input output runTask order).reports
            = (crawl_run sites input output runTask order₂).reports) := by
  refine ⟨crawl_reports_length .., ?_, ?_⟩
  · intro i hi
    exact crawl_reports_spec sites input output runTask order horder i hi
  · intro order₂ horder₂
    apply List.ext_getElem?
    intro n
    by_cases hn : n < sites.length
    · rw [crawl_reports_spec sites input output runTask order horder n hn,
        crawl_reports_spec sites input output runTask order₂ horder₂ n hn]
    · rw [List.getElem?_eq_none, List.getElem?_eq_none]
      · rw [crawl_reports_length]; omega
      · rw [crawl_reports_length]; omega

/-- C1 witness: a two-site dispatch whose tasks complete in reversed order
still reports two slots. -/
theorem C1_dispatch_ordered_witness :
    (crawl_run ["airav", "javbus"] CrawlerInput.empty none
      (fun _ _ => (TaskOutcome.exn "e" : TaskOutcome Unit)) [1, 0]).reports.length
      = 2 :=
  (C1_dispatch_ordered Unit ["airav", "javbus"] CrawlerInput.empty none
    (fun _ _ => TaskOutcome.exn "e") [1, 0] (by decide)).1

/-- C2: a task that raises is captured into its own result slot only: slot
`i` shows the captured error, every sibling slot still holds its own site's
outcome, and once validation passed the root command finishes with exit code
0 no matter what the tasks did ( `_crawl`, which is total in this model,
completed). -/
theorem C2_failure_isolation (D : Type) (sites : List Website)
    (input : CrawlerInput) (output : Option String)
    (runTask : Website → CrawlerInput → TaskOutcome D) (order : List Nat)
    (horder : ∀ i, i < sites.length → i ∈ order)
    (i : Nat) (hi : i < sites.length) (m : String)
    (hfail : runTask sites[i] input = .exn m) :
    (crawl_run sites input output runTask order).reports[i]?
        = some (sites[i], some (.errored m))
      ∧ (∀ j, ∀ hj : j < sites.length, j ≠ i →
          (crawl_run sites input output runTask order).reports[j]?
            = some (sites[j],
                some (slotBody output sites[j] (runTask sites[j] input))))
      ∧ (∀ (number appoint_url : String) (file_path : Option String)
            (short_number mosaic appoint_number language org_language : String),
          ¬(number = "" ∧ appoint_url = "") →
          (main_run (some sites) number appoint_url file_path short_number
              mosaic appoint_number language org_language output
              (fun s _ => runTask s input) order).exitCode = 0) := by
  refine ⟨?_, ?_, ?_⟩
  · rw [crawl_reports_spec sites input output runTask order horder i hi, hfail]
    rfl
  · intro j hj _
    exact crawl_reports_spec sites input output runTask order horder j hj
  · intro number appoint_url file_path short_number mosaic appoint_number
      language org_language hval
    simp only [main_run]
    rw [if_neg hval]

/-- C2 witness: the spec scenario — two sites, the first succeeding with a
payload, the second raising — reported as two slots (success with the
payload, then the captured error), with root exit code 0. -/
theorem C2_failure_isolation_witness :
    (crawl_run ["A", "B"] CrawlerInput.empty none
        (fun s _ => if s = "A" then
            TaskOutcome.ok ⟨some "x", ⟨[], 0.0, ""⟩⟩
          else (TaskOutcome.exn "boom" : TaskOutcome String)) [1, 0]).reports[1]?
        = some ("B", some (SlotBody.errored "boom"))
      ∧ (crawl_run ["A", "B"] CrawlerInput.empty none
          (fun s _ => if s = "A" then
              TaskOutcome.ok ⟨some "x", ⟨[], 0.0, ""⟩⟩
            else TaskOutcome.exn "boom") [1, 0]).reports[0]?
        = some ("A", some (SlotBody.succeeded [] "x" none))
      ∧ (main_run (some ["A", "B"]) "ABC-123" "" none "" "" "" "" "" none
          (fun s _ => if s = "A" then
              TaskOutcome.ok ⟨some "x", ⟨[], 0.0, ""⟩⟩
            else (TaskOutcome.exn "boom" : TaskOutcome String)) [1, 0]).exitCode
        = 0 := by
  have h := C2_failure_isolation String ["A", "B"] CrawlerInput.empty none
    (fun s _ => if s = "A" then TaskOutcome.ok ⟨some "x", ⟨[], 0.0, ""⟩⟩
      else TaskOutcome.exn "boom") [1, 0] (by decide) 1 (by decide) "boom"
    (by simp)
  refine ⟨h.1, ?_, h.2.2 "ABC-123" "" none "" "" "" "" "" (by simp)⟩
  have h0 := h.2.1 0 (by decide) (by decide)
  rw [h0]
  rfl

/-- C8: the root command exits with code 1 when `--site` is missing, and
when neither `--number` nor `--appoint-url` is given; in both cases the event
trace is empty — in particular no HTTP client and no browser resource was
created. -/
theorem C8_validation_before_work (D : Type) (sites : Option (List Website))
    (number appoint_url : String) (file_path : Option String)
    (short_number mosaic appoint_number language org_language : String)
    (output : Option String)
    (runTask : Website → CrawlerInput → TaskOutcome D) (order : List Nat) :
    (sites = none →
        (main_run sites number appoint_url file_path short_number mosaic
            appoint_number language org_language output runTask order).exitCode
          = 1
        ∧ (main_run sites number appoint_url file_path short_number mosaic
            appoint_number language org_language output runTask order).events
          = [])
      ∧ (number = "" → appoint_url = "" →
          (main_run sites number appoint_url file_path short_number mosaic
              appoint_number language org_language output runTask order).exitCode
            = 1
          ∧ (main_run sites number appoint_url file_path short_number mosaic
              appoint_number language org_language output runTask
              order).events
            = []) := by
  constructor
  · rintro rfl
    simp only [main_run]
    exact ⟨trivial, trivial⟩
  · intro hn ha
    cases sites with
    | none =>
      simp only [main_run]
      exact ⟨trivial, trivial⟩
    | some l =>
      simp only [main_run]
      rw [if_pos ⟨hn, ha⟩]
      exact ⟨rfl, rfl⟩

/-- C8 witness: both validation failures at concrete inputs. -/
theorem C8_validation_before_work_witness :
    ((main_run (D := Unit) none "ABC" "" none "" "" "" "" "" none
        (fun _ _ => TaskOutcome.exn "e") []).exitCode = 1
      ∧ (main_run (D := Unit) none "ABC" "" none "" "" "" "" "" none
          (fun _ _ => TaskOutcome.exn "e") []).events = [])
      ∧ ((main_run (D := Unit) (some ["airav"]) "" "" none "" "" "" "" "" none
          (fun _ _ => TaskOutcome.exn "e") []).exitCode = 1
        ∧ (main_run (D := Unit) (some ["airav"]) "" "" none "" "" "" "" ""
            none (fun _ _ => TaskOutcome.exn "e") []).events = []) :=
  ⟨(C8_validation_before_work Unit none "ABC" "" none "" "" "" "" "" none
      (fun _ _ => TaskOutcome.exn "e") []).1 rfl,
   (C8_validation_before_work Unit (some ["airav"]) "" "" none "" "" "" "" ""
      none (fun _ _ => TaskOutcome.exn "e") []).2 rfl rfl⟩

theorem browserTaskEvents_count_get (sites : List Website) (b : Bool) :
    (browserTaskEvents sites b).count Event.browserGet = sites.length := by
  induction sites generalizing b with
  | nil => simp [browserTaskEvents]
  | cons s rest ih =>
    cases b <;>
      simp [browserTaskEvents, ih, List.count_cons, List.count_append,
        List.count_nil]

theorem browserTaskEvents_count_launch_true (sites : List Website) :
    (browserTaskEvents sites true).count Event.browserLaunch = 0 := by
  induction sites with
  | nil => simp [browserTaskEvents]
  | cons s rest ih =>
    simp [browserTaskEvents, ih, List.count_cons]

/-- C9 (counterexample): dispatching a single site whose strategy has no use
for the browser still acquires the browser handle and launches the shared
session — `_crawl` requests `get_browser()` unconditionally for every task,
so the claimed "no browser session is ever acquired" dispatch does not
exist for non-empty site lists. -/
theorem C9_counterexample :
    (crawl_run ["airav"] CrawlerInput.empty none
        (fun _ _ => (TaskOutcome.exn "e" : TaskOutcome Unit)) [0]).events.count
        Event.browserGet = 1
      ∧ (crawl_run ["airav"] CrawlerInput.empty none
          (fun _ _ => (TaskOutcome.exn "e" : TaskOutcome Unit)) [0]).events.count
          Event.browserLaunch = 1 := by
  refine ⟨by decide, by decide⟩

/-- C9 (amended): in `_crawl` the browser handle is requested once per task
unconditionally — whether or not any strategy needs it — and the shared
session is launched exactly once as soon as the dispatch is non-empty. -/
theorem C9_browser_unconditional (D : Type) (sites : List Website)
    (input : CrawlerInput) (output : Option String)
    (runTask : Website → CrawlerInput → TaskOutcome D) (order : List Nat) :
    (crawl_run sites input output runTask order).events.count Event.browserGet
        = sites.length
      ∧ (crawl_run sites input output runTask order).events.count
          Event.browserLaunch = (if sites.isEmpty then 0 else 1) := by
  constructor
  · unfold crawl_run
    simp [List.count_cons, browserTaskEvents_count_get]
  · unfold crawl_run
    cases sites with
    | nil => simp [browserTaskEvents]
    | cons s rest =>
      simp [browserTaskEvents, List.count_cons, List.count_append,
        browserTaskEvents_count_launch_true]

/-- C6 (counterexample): for the URL `"/"` — a URL with no path segments —
the code derives `tests/crawlers/data/.html`, not the spec's
`tests/crawlers/data/detail.html`: the `detail.html` fallback of the claim is
dead code, because Python's `split` always returns at least one chunk. -/
theorem C6_counterexample :
    determine_output_path none "/" none none "tests/crawlers/data"
        = "tests/crawlers/data/.html"
      ∧ spec_output_path "/" none none "tests/crawlers/data"
        = "tests/crawlers/data/detail.html"
      ∧ determine_output_path none "/" none none "tests/crawlers/data"
        ≠ spec_output_path "/" none none "tests/crawlers/data" := by
  refine ⟨by decide, by decide, by decide⟩

/-- C6 (amended): when no explicit output path is given (`None` or `""`,
both falsy), the derived path is `baseDir / (siteName if known) / filename`
with `filename = "{number}.html"` when a number is supplied, and otherwise
the final `/`-separated chunk of the stripped URL — which always exists,
possibly empty — with `=`, `?`, `&` each replaced by `_`, plus `".html"`;
the `"detail.html"` fallback is never produced. -/
theorem C6_output_path_derivation (output_path : Option String) (url : String)
    (site : Option Website) (number : Option String) (base_dir : String)
    (h : strTruthy output_path = false) :
    determine_output_path output_path url site number base_dir
      = amended_output_path url site number base_dir := by
  have hne : pySplitChar '/' (pyStrip '/' url.data) ≠ [] :=
    pySplitChar_ne_nil '/' (pyStrip '/' url.data)
  unfold determine_output_path amended_output_path
  rw [if_neg (by simp [h])]
  cases hn : strTruthy number with
  | true => cases site <;> simp [hn]
  | false =>
    cases site <;> (simp [hn, cleanIdentifier_eq_map]; rw [if_neg hne])

/-- C6 witness: the amended derivation applied at the spec's own example —
URL `.../ABC=123?x=1`, known site `foo`, no number — together with a
concrete evaluation of the derived path. -/
theorem C6_output_path_derivation_witness :
    strTruthy (none : Option String) = false
      ∧ determine_output_path none "https://x.com/a/ABC=123?x=1" (some "foo")
          none "tests/crawlers/data"
        = amended_output_path "https://x.com/a/ABC=123?x=1" (some "foo")
          none "tests/crawlers/data"
      ∧ determine_output_path none "https://x.com/a/ABC=123?x=1" (some "foo")
          none "tests/crawlers/data"
        = "tests/crawlers/data/foo/ABC_123_x_1.html" :=
  ⟨by decide,
   C6_output_path_derivation none "https://x.com/a/ABC=123?x=1" (some "foo")
     none "tests/crawlers/data" (by decide),
   by decide⟩

/-- C7: site auto-detection returns `some s` exactly when the ordered keyword
map decomposes as `pre ++ (kw, s) :: post` with `kw` the first keyword whose
lowercase form is a substring of the lowercased URL (every earlier keyword
failing the test), and `none` exactly when no keyword matches; no match is
not an error, just `none`. -/
theorem C7_detect_first_match (web_dic : List (String × Website)) (url : String) :
    (∀ s, detect_site_from_url web_dic url = some s ↔
        ∃ kw pre post, web_dic = pre ++ (kw, s) :: post
          ∧ kwMatches kw url = true
          ∧ ∀ p ∈ pre, kwMatches p.1 url = false)
      ∧ (detect_site_from_url web_dic url = none ↔
          ∀ p ∈ web_dic, kwMatches p.1 url = false) := by
  constructor
  · intro s
    constructor
    · intro hs
      unfold detect_site_from_url at hs
      rcases hfind : web_dic.find? (fun p => kwMatches p.1 url) with _ | p
      · rw [hfind] at hs; cases hs
      · rw [hfind] at hs
        obtain ⟨hp, pre, post, hdic, hpre⟩ := List.find?_eq_some.mp hfind
        refine ⟨p.1, pre, post, ?_, hp, ?_⟩
        · have : p = (p.1, s) := by
            cases hs; exact rfl
          rw [← this]; exact hdic
        · intro q hq
          have := hpre q hq
          simpa using this
    · rintro ⟨kw, pre, post, hdic, hkw, hpre⟩
      have hfind : web_dic.find? (fun p => kwMatches p.1 url) = some (kw, s) := by
        apply List.find?_eq_some.mpr
        exact ⟨hkw, pre, post, hdic, fun q hq => by simpa using hpre q hq⟩
      unfold detect_site_from_url
      rw [hfind]
  · constructor
    · intro hnone
      unfold detect_site_from_url at hnone
      rcases hfind : web_dic.find? (fun p => kwMatches p.1 url) with _ | p
      · intro q hq
        have := List.find?_eq_none.mp hfind q hq
        simpa using this
      · rw [hfind] at hnone; cases hnone
    · intro hall
      unfold detect_site_from_url
      rw [List.find?_eq_none.mpr (fun q hq => by simp [hall q hq])]

/-- C7 witness: a concrete keyword map and URL where the second entry is the
first (case-insensitive) substring match, obtained through the
characterization theorem. -/
theorem C7_detect_first_match_witness :
    detect_site_from_url [("airav", "airav"), ("JavBus", "javbus")]
        "https://www.JAVBUS.com/ABC-123" = some "javbus" :=
  ((C7_detect_first_match [("airav", "airav"), ("JavBus", "javbus")]
      "https://www.JAVBUS.com/ABC-123").1 "javbus").mpr
    ⟨"JavBus", [("airav", "airav")], [], rfl, by decide, by decide⟩

theorem fetch_phase_events (url : String) (website : Option Website)
    (use_browser : Bool) (o : FetchOracles) :
    (fetch_phase url website use_browser o).1 = []
      ∨ (fetch_phase url website use_browser o).1 = acquireEvents := by
  cases website with
  | none =>
    cases use_browser with
    | false => simp [fetch_phase]
    | true =>
      cases hgb : o.get_browser with
      | error m => simp [fetch_phase, hgb]
      | ok u =>
        cases hn : o.nav url with
        | error e => simp [fetch_phase, hgb, hn]
        | ok c => simp [fetch_phase, hgb, hn]
  | some w =>
    by_cases hok : o.get_crawler w = false
    · simp [fetch_phase, hok]
    · cases use_browser with
      | false => simp [fetch_phase, hok]
      | true =>
        cases hgb : o.get_browser with
        | error m => simp [fetch_phase, hok, hgb]
        | ok u => simp [fetch_phase, hok, hgb]

theorem fetch_phase_events_mem (url : String) (website : Option Website)
    (use_browser : Bool) (o : FetchOracles) :
    ∀ ev ∈ (fetch_phase url website use_browser o).1,
      ev = Event.browserGet ∨ ev = Event.browserLaunch := by
  intro ev hev
  rcases fetch_phase_events url website use_browser o with h | h <;>
    rw [h] at hev
  · simp at hev
  · simpa [acquireEvents] using hev

theorem fetch_body_no_close (url : String) (website : Option Website)
    (use_browser : Bool) (output_path : Option String)
    (number : Option String) (base_dir : String) (o : FetchOracles) :
    Event.browserClose
      ∉ (fetch_body url website use_browser output_path number base_dir o).1 := by
  have hevs : Event.browserClose ∉ (fetch_phase url website use_browser o).1 := by
    intro hmem
    rcases fetch_phase_events_mem url website use_browser o
      Event.browserClose hmem with h | h <;> cases h
  unfold fetch_body
  cases hp : fetch_phase url website use_browser o with
  | mk evs r =>
    rw [hp] at hevs
    cases r with
    | pair html error =>
      cases html with
      | none => simpa [afterFetch] using hevs
      | some s =>
        cases hw : o.write_error with
        | none =>
          simp [afterFetch, hw, List.mem_append]
          exact hevs
        | some m =>
          simp [afterFetch, hw, List.mem_append]
          exact hevs
    | sysExit c => simpa using hevs
    | raised m => simpa using hevs

theorem fetch_async_spec (url : String) (website : Option Website)
    (use_browser : Bool) (output_path : Option String)
    (number : Option String) (base_dir : String) (o : FetchOracles) :
    fetch_async url website use_browser output_path number base_dir o
      = ⟨Event.clientCreate :: Event.providerCreate ::
            (fetch_body url website use_browser output_path number base_dir o).1
            ++ [Event.browserClose],
          (match (fetch_body url website use_browser output_path number base_dir o).2 with
            | .raised _ => 1
            | .sysExit c => c
            | _ => 0),
          (fetch_body url website use_browser output_path number base_dir o).2⟩ := by
  unfold fetch_async
  cases h : fetch_body url website use_browser output_path number base_dir o with
  | mk evs r => cases r <;> simp

theorem fetch_body_earlyReturn_events (url : String) (website : Option Website)
    (use_browser : Bool) (output_path : Option String)
    (number : Option String) (base_dir : String) (o : FetchOracles)
    (e : String)
    (h : (fetch_body url website use_browser output_path number base_dir o).2
      = .earlyReturn e) :
    (fetch_body url website use_browser output_path number base_dir o).1
      = (fetch_phase url website use_browser o).1 := by
  unfold fetch_body at h ⊢
  cases hp : fetch_phase url website use_browser o with
  | mk evs r =>
    rw [hp] at h
    cases r with
    | pair html error =>
      cases html with
      | none => simp [afterFetch]
      | some s =>
        cases hw : o.write_error with
        | none => simp [afterFetch, hw] at h
        | some m => simp [afterFetch, hw] at h
    | sysExit c => simp at h
    | raised m => simp at h

/-- C3 (counterexample): on the forced-browser branch, a page whose rendered
content is the empty string yields the pair `(html, error) = ("", "")`:
`html` is present but empty and `error` is empty, so "html non-empty XOR
error non-empty — never neither" fails; the code's subsequent `html is None`
check still treats this as success. -/
theorem C3_counterexample :
    (fetch_phase "https://x.com/a" none true
        { get_crawler := fun _ => true,
          fetch_detail := fun _ _ _ => (none, "unused"),
          get_browser := Except.ok (),
          nav := fun _ => Except.ok "",
          get_text := fun _ => (none, "unused"),
          write_error := none }).2
      = PhaseResult.pair (some "") ""
      ∧ ¬ htmlErrorXor (some "") "" := by
  constructor
  · rfl
  · simp [htmlErrorXor]

/-- C3 (amended): the discriminant the code maintains is presence, not
non-emptiness: on every branch, `html` is non-`None` iff `error` is the
empty string — provided the site-specific and plain-HTTP collaborators
return pairs satisfying that same presence contract and navigation
exceptions carry non-empty messages.  `html` may be present but empty (an
empty rendered page), which is exactly what breaks the original
non-emptiness claim. -/
theorem C3_presence_contract (url : String) (website : Option Website)
    (use_browser : Bool) (o : FetchOracles)
    (hfd : ∀ w ci u, presenceOk (o.fetch_detail w ci u))
    (hgt : ∀ u, presenceOk (o.get_text u))
    (hnav : ∀ u m, o.nav u = .error m → m ≠ "") :
    ∀ evs html error,
      fetch_phase url website use_browser o = (evs, .pair html error) →
      (html.isSome = true ↔ error = "") := by
  intro evs html error h
  cases website with
  | some w =>
    by_cases hok : o.get_crawler w = false
    · simp [fetch_phase, hok] at h
    · cases use_browser with
      | false =>
        simp [fetch_phase, hok] at h
        obtain ⟨-, h1, h2⟩ := h
        rw [← h1, ← h2]
        exact hfd w _ url
      | true =>
        cases hgb : o.get_browser with
        | error m => simp [fetch_phase, hok, hgb] at h
        | ok u =>
          simp [fetch_phase, hok, hgb] at h
          obtain ⟨-, h1, h2⟩ := h
          rw [← h1, ← h2]
          exact hfd w _ url
  | none =>
    cases use_browser with
    | false =>
      simp [fetch_phase] at h
      obtain ⟨-, h1, h2⟩ := h
      rw [← h1, ← h2]
      exact hgt url
    | true =>
      cases hgb : o.get_browser with
      | error m => simp [fetch_phase, hgb] at h
      | ok u =>
        cases hn : o.nav url with
        | ok c =>
          simp [fetch_phase, hgb, hn] at h
          obtain ⟨-, h1, h2⟩ := h
          rw [← h1, ← h2]
          simp
        | error e =>
          simp [fetch_phase, hgb, hn] at h
          obtain ⟨-, h1, h2⟩ := h
          rw [← h1, ← h2]
          simpa using hnav url e hn

/-- A concrete collaborator assignment satisfying the presence contract:
site strategies succeed, plain HTTP times out, navigation fails. -/
def presOracle : FetchOracles :=
  { get_crawler := fun _ => true,
    fetch_detail := fun _ _ _ => (some "<html></html>", ""),
    get_browser := Except.ok (),
    nav := fun _ => Except.error "nav failed",
    get_text := fun _ => (none, "timeout"),
    write_error := none }

/-- C3 witness: the presence contract instantiated on the site-specific
branch with `presOracle`. -/
theorem C3_presence_contract_witness :
    ((some "<html></html>" : Option String).isSome = true ↔ ("" : String) = "") :=
  C3_presence_contract "https://x.com/a" (some "airav") false presOracle
    (fun _ _ _ => by simp [presenceOk, presOracle])
    (fun _ => by simp [presenceOk, presOracle])
    (fun u m hm => by
      simp only [presOracle] at hm
      cases hm
      decide)
    [] (some "<html></html>") "" (by rfl)

theorem browserTaskEvents_count_close (sites : List Website) (b : Bool) :
    (browserTaskEvents sites b).count Event.browserClose = 0 := by
  induction sites generalizing b with
  | nil => simp [browserTaskEvents]
  | cons s rest ih =>
    cases b <;>
      simp [browserTaskEvents, List.count_append, List.count_cons, ih]

/-- C4 (counterexample): a concrete single-site dispatch launches the shared
browser session (one `browserLaunch`) yet `_crawl` never releases it (zero
`browserClose` events), so "released exactly once … for both the multi-site
dispatch command and the single-URL fetch command" fails on the dispatch
side. -/
theorem C4_counterexample :
    (crawl_run ["airav"] CrawlerInput.empty none
        (fun _ _ => (TaskOutcome.exn "e" : TaskOutcome Unit)) [0]).events.count
        Event.browserLaunch = 1
      ∧ (crawl_run ["airav"] CrawlerInput.empty none
          (fun _ _ => (TaskOutcome.exn "e" : TaskOutcome Unit)) [0]).events.count
          Event.browserClose = 0 := by
  refine ⟨by decide, by decide⟩

/-- C4 (amended): the single-URL fetch command releases the browser provider
exactly once on every exit path — normal completion, early return after a
captured fetch error, `SystemExit` on an unresolved strategy, or a raised
exception — while the multi-site dispatch `_crawl` never releases it at
all. -/
theorem C4_release_discipline (url : String) (website : Option Website)
    (use_browser : Bool) (output_path : Option String)
    (number : Option String) (base_dir : String) (o : FetchOracles) :
    ((fetch_async url website use_browser output_path number base_dir
        o).events.count Event.browserClose = 1)
      ∧ (∀ (D : Type) (sites : List Website) (input : CrawlerInput)
            (output : Option String)
            (runTask : Website → CrawlerInput → TaskOutcome D)
            (order : List Nat),
          (crawl_run sites input output runTask order).events.count
            Event.browserClose = 0) := by
  constructor
  · rw [fetch_async_spec]
    have h0 : (fetch_body url website use_browser output_path number base_dir
        o).1.count Event.browserClose = 0 :=
      List.count_eq_zero.mpr
        (fetch_body_no_close url website use_browser output_path number
          base_dir o)
    simp [List.count_append, List.count_cons, h0]
  · intro D sites input output runTask order
    unfold crawl_run
    simp [List.count_cons, browserTaskEvents_count_close]

/-- C5 (counterexample): a plain-HTTP fetch whose collaborator captures an
error (`html is None`) makes `_fetch_async` print the error and return
normally — the command's exit code is 0, not the claimed 1. -/
theorem C5_counterexample :
    (fetch_async "https://x.com/a" none false none none "tests/crawlers/data"
        presOracle).outcome = FetchEnd.earlyReturn "timeout"
      ∧ (fetch_async "https://x.com/a" none false none none
          "tests/crawlers/data" presOracle).exitCode = 0
      ∧ (fetch_async "https://x.com/a" none false none none
          "tests/crawlers/data" presOracle).exitCode ≠ 1 := by
  refine ⟨rfl, rfl, by decide⟩

/-- C5 (amended): the fetch command exits with code 1 when the requested
site's strategy cannot be resolved (`exit(1)`) and when an exception escapes
the body (`typer.Exit(1)`), but a captured fetch error (absent `html`) takes
the early-return path and exits with code 0. -/
theorem C5_exit_codes (url : String) (website : Option Website)
    (use_browser : Bool) (output_path : Option String)
    (number : Option String) (base_dir : String) (o : FetchOracles) :
    (∀ w, website = some w → o.get_crawler w = false →
        (fetch_async url website use_browser output_path number base_dir
          o).exitCode = 1)
      ∧ (∀ e,
          (fetch_async url website use_browser output_path number base_dir
              o).outcome = FetchEnd.earlyReturn e →
          (fetch_async url website use_browser output_path number base_dir
            o).exitCode = 0)
      ∧ (∀ m,
          (fetch_async url website use_browser output_path number base_dir
              o).outcome = FetchEnd.raised m →
          (fetch_async url website use_browser output_path number base_dir
            o).exitCode = 1) := by
  refine ⟨?_, ?_, ?_⟩
  · rintro w rfl hok
    rw [fetch_async_spec]
    unfold fetch_body fetch_phase
    simp [hok]
  · intro e h
    rw [fetch_async_spec] at h ⊢
    simp only at h ⊢
    rw [h]
  · intro m h
    rw [fetch_async_spec] at h ⊢
    simp only at h ⊢
    rw [h]

/-- C5 witness: both amended exit-code facts at concrete inputs — an
unresolved strategy exits 1, a captured `get_text` error exits 0. -/
theorem C5_exit_codes_witness :
    ((fetch_async "https://x.com/a" (some "nosite") false none none
        "tests/crawlers/data"
        { presOracle with get_crawler := fun _ => false }).exitCode = 1)
      ∧ ((fetch_async "https://x.com/a" none false none none
          "tests/crawlers/data" presOracle).exitCode = 0) :=
  ⟨(C5_exit_codes "https://x.com/a" (some "nosite") false none none
      "tests/crawlers/data"
      { presOracle with get_crawler := fun _ => false }).1 "nosite" rfl rfl,
   (C5_exit_codes "https://x.com/a" none false none none "tests/crawlers/data"
      presOracle).2.1 "timeout" rfl⟩

/-- C10: whenever the fetch captures an error (the outcome is the early
return), the whole `_fetch_async` event trace contains no filesystem effect:
no directory is created and no file is written. -/
theorem C10_no_fs_effect_on_error (url : String) (website : Option Website)
    (use_browser : Bool) (output_path : Option String)
    (number : Option String) (base_dir : String) (o : FetchOracles)
    (e : String)
    (h : (fetch_async url website use_browser output_path number base_dir
        o).outcome = FetchEnd.earlyReturn e) :
    (fetch_async url website use_browser output_path number base_dir
        o).events.filter (fun ev => isFsEvent ev) = [] := by
  rw [fetch_async_spec] at h ⊢
  simp only at h
  rw [fetch_body_earlyReturn_events url website use_browser output_path number
    base_dir o e h]
  apply List.filter_eq_nil_iff.mpr
  intro ev hev
  simp only [List.mem_cons, List.mem_append, List.mem_singleton] at hev
  rcases hev with (rfl | rfl | hev) | (rfl | hfalse)
  · simp [isFsEvent]
  · simp [isFsEvent]
  · rcases fetch_phase_events_mem url website use_browser o ev hev with h1 | h1 <;>
      rw [h1] <;> simp [isFsEvent]
  · simp [isFsEvent]
  · simp at hfalse

/-- C10 witness: the error-path trace of a concrete failing plain-HTTP fetch
contains no filesystem event. -/
theorem C10_no_fs_effect_on_error_witness :
    (fetch_async "https://x.com/a" none false none none "tests/crawlers/data"
        presOracle).events.filter (fun ev => isFsEvent ev) = [] :=
  C10_no_fs_effect_on_error "https://x.com/a" none false none none
    "tests/crawlers/data" presOracle "timeout" rfl

end Mdcx
